import Mathlib

/-!
Shallow embedding of the wd-ai-agent-orchestration tutorial scripts.

The Python sources are embedded as executable Lean definitions: Python `str`
values are `String`, the `str` helpers used by the scripts (`strip`, `split`,
`upper`, `lower`, `startswith`, slicing) are modelled on `List Char`,
environment access is a total map `String → String` (with `""` for an unset
variable, matching `os.getenv(name, "")`), Python `float` amounts are
modelled as `ℚ` (the properties at issue only multiply by the literal `1.0`
or return the input unchanged, which is exact in IEEE arithmetic as well),
and code that can raise an exception returns `Option`.
-/

namespace WdOrch

/-- The single-quote character, written by code point to keep sources plain. -/
def squote : Char := Char.ofNat 39

/-- Characters removed by Python `str.strip()` with no argument:
space, tab, newline, carriage return, vertical tab, form feed. -/
def pyWhitespace (c : Char) : Bool :=
  c = ' ' || c = '\t' || c = '\n' || c = '\r' || c = Char.ofNat 11 || c = Char.ofNat 12

/-- Remove leading and trailing characters satisfying `p`
(Python `str.strip(chars)` on the character list). -/
def stripList (p : Char → Bool) (l : List Char) : List Char :=
  ((l.dropWhile p).reverse.dropWhile p).reverse

/-- Python `s.strip(chars)` on strings. -/
def pyStrip (p : Char → Bool) (s : String) : String :=
  ⟨stripList p s.data⟩

/-- Python `s.startswith(pre)`. -/
def pyStartswith (s pre : String) : Bool :=
  pre.data.isPrefixOf s.data

/-- Python `s.split(sep, 1)[1]`: everything after the first occurrence of the
one-character separator `sep`.  Every call site first guards that `sep` occurs
in `s` (via `startswith`), so the partial indexing `[1]` is total there. -/
def splitOffFirst (sep : Char) (s : String) : String :=
  ⟨(s.data.dropWhile (fun c => c != sep)).drop 1⟩

/-- An environment state: a total map from variable names to raw values,
with `""` for an unset variable (Python `os.getenv(name, "")`). -/
def Env : Type := String → String

/-- Model of `_clean_env` (src/01-hello-agent/agent_framework/hello_agent.py:37-38)
and `clean_env` (src/00-introduction/smoke_test.py:26-28):
`os.getenv(name, "").strip().strip(double-quote).strip(single-quote)`. -/
def clean_env (env : Env) (name : String) : String :=
  pyStrip (fun c => c = squote) (pyStrip (fun c => c = '"') (pyStrip pyWhitespace (env name)))

/-- The two clients `create_client` can construct, with the constructor
arguments that the script passes explicitly.  `OpenAIResponsesClient()` is
constructed with no arguments. -/
inductive Client where
  | azure (api_key : String) (endpoint : String) (api_version : Option String)
      (deployment_name : String) : Client
  | openai : Client
  deriving DecidableEq

/-- Whether a client is the Azure client. -/
def Client.isAzure : Client → Bool
  | Client.azure _ _ _ _ => true
  | Client.openai => false

/-- Model of `create_client` (src/01-hello-agent/agent_framework/hello_agent.py:42-57).
Python truthiness of a string is non-emptiness; `_clean_env("AZURE_API_VERSION") or None`
maps `""` to `None`. -/
def create_client (env : Env) : Client :=
  let azure_api_key := clean_env env "AZURE_API_KEY"
  let azure_api_base := clean_env env "AZURE_API_BASE"
  let azure_api_version :=
    if clean_env env "AZURE_API_VERSION" = "" then none
    else some (clean_env env "AZURE_API_VERSION")
  let default_model := clean_env env "DEFAULT_MODEL"
  if azure_api_key ≠ "" ∧ azure_api_base ≠ "" ∧ pyStartswith default_model "azure/" = true then
    Client.azure azure_api_key azure_api_base azure_api_version
      (splitOffFirst '/' default_model)
  else
    Client.openai

/-- A fixed concrete environment used to instantiate universally quantified
theorems at a concrete point. -/
def envAzureSample : Env :=
  fun n =>
    if n = "AZURE_API_KEY" then " \"k1\" "
    else if n = "AZURE_API_BASE" then "https://e.example"
    else if n = "DEFAULT_MODEL" then "azure/gpt-4o"
    else ""

/-- C1: `create_client` returns the Azure client exactly when the cleaned
`AZURE_API_KEY` and `AZURE_API_BASE` are both non-empty and the cleaned
`DEFAULT_MODEL` starts with "azure/"; in that case the deployment name passed
to the Azure client is the substring of the model after the first "/"
(witnessed by the third conjunct evaluated on "azure/" prefixed strings), and
in every other environment state it returns the OpenAI client; the selection
depends on no environment variables besides `AZURE_API_KEY`, `AZURE_API_BASE`,
`DEFAULT_MODEL` and the pass-through `AZURE_API_VERSION`. -/
theorem create_client_selects_azure_iff (env : Env) :
    ((create_client env).isAzure = true ↔
      (clean_env env "AZURE_API_KEY" ≠ "" ∧ clean_env env "AZURE_API_BASE" ≠ "" ∧
        pyStartswith (clean_env env "DEFAULT_MODEL") "azure/" = true)) ∧
    (clean_env env "AZURE_API_KEY" ≠ "" → clean_env env "AZURE_API_BASE" ≠ "" →
      pyStartswith (clean_env env "DEFAULT_MODEL") "azure/" = true →
      create_client env = Client.azure (clean_env env "AZURE_API_KEY")
        (clean_env env "AZURE_API_BASE")
        (if clean_env env "AZURE_API_VERSION" = "" then none
          else some (clean_env env "AZURE_API_VERSION"))
        (splitOffFirst '/' (clean_env env "DEFAULT_MODEL"))) ∧
    (∀ r : String, splitOffFirst '/' ("azure/" ++ r) = r) ∧
    (∀ env2 : Env, env "AZURE_API_KEY" = env2 "AZURE_API_KEY" →
      env "AZURE_API_BASE" = env2 "AZURE_API_BASE" →
      env "AZURE_API_VERSION" = env2 "AZURE_API_VERSION" →
      env "DEFAULT_MODEL" = env2 "DEFAULT_MODEL" →
      create_client env = create_client env2) := by
  refine ⟨?_, ?_, ?_, ?_⟩
  · by_cases h : (clean_env env "AZURE_API_KEY" ≠ "" ∧ clean_env env "AZURE_API_BASE" ≠ "" ∧
        pyStartswith (clean_env env "DEFAULT_MODEL") "azure/" = true) <;>
      simp [create_client, Client.isAzure, h]
  · intro h1 h2 h3
    simp [create_client, h1, h2, h3]
  · intro r
    cases r with
    | mk data => rfl
  · intro env2 h1 h2 h3 h4
    simp only [create_client, clean_env, h1, h2, h3, h4]

/-- C1 witness: the theorem applied to the concrete sample environment, whose
cleaned values select the Azure client with deployment name "gpt-4o". -/
theorem create_client_selects_azure_iff_witness :
    create_client envAzureSample =
      Client.azure "k1" "https://e.example" none "gpt-4o" :=
  ((create_client_selects_azure_iff envAzureSample).2.1
    (by decide) (by decide) (by decide)).trans (by decide)

/-- Python `s.split(sep)` for a one-character separator, on character lists:
`"".split(sep)` is `[""]`, and every occurrence of `sep` separates fields. -/
def splitCh (sep : Char) : List Char → List (List Char)
  | [] => [[]]
  | c :: rest =>
    let r := splitCh sep rest
    if c = sep then [] :: r
    else (c :: r.headD []) :: r.tail

theorem splitCh_ne_nil (sep : Char) (l : List Char) : splitCh sep l ≠ [] := by
  induction l with
  | nil => simp [splitCh]
  | cons c rest ih => by_cases h : c = sep <;> simp [splitCh, h]

theorem splitCh_no_sep (sep : Char) (l : List Char) (h : ∀ c ∈ l, ¬(c = sep)) :
    splitCh sep l = [l] := by
  induction l with
  | nil => rfl
  | cons c rest ih =>
    have hc : ¬(c = sep) := h c (by simp)
    have hr := ih (fun d hd => h d (by simp [hd]))
    simp [splitCh, hc, hr]

theorem splitCh_append_sep (sep : Char) (A B : List Char) (h : ∀ c ∈ A, ¬(c = sep)) :
    splitCh sep (A ++ sep :: B) = A :: splitCh sep B := by
  induction A with
  | nil => simp [splitCh]
  | cons c rest ih =>
    have hc : ¬(c = sep) := h c (by simp)
    have hr := ih (fun d hd => h d (by simp [hd]))
    simp [splitCh, hc, hr]

theorem string_eta (s : String) : String.mk s.data = s := rfl

/-- The numeric value of a decimal digit character, `none` otherwise. -/
def digitVal (c : Char) : Option Nat :=
  if c.isDigit then some (c.toNat - '0'.toNat) else none

/-- Decimal digit-string parsing: `none` on an empty list or a non-digit. -/
def parseDigits : List Char → Option Nat
  | [] => none
  | l => l.foldl (fun acc c => acc.bind (fun a => (digitVal c).map (fun d => a * 10 + d)))
      (some 0)

/-- Python `int(s)` restricted to the decimal forms the scripts produce and
consume: optional surrounding whitespace, an optional sign, then decimal
digits; a `ValueError` is `none`.  (Underscore digit grouping is not
modelled; no call site uses it.) -/
def pyInt (s : String) : Option Int :=
  match stripList pyWhitespace s.data with
  | '-' :: rest => (parseDigits rest).map (fun n => -(n : Int))
  | '+' :: rest => (parseDigits rest).map (fun n => (n : Int))
  | l => (parseDigits l).map (fun n => (n : Int))

/-- Python `dict(pairs).get(key, dflt)`: the last binding of a key wins. -/
def dictGet (pairs : List (String × String)) (key dflt : String) : String :=
  match pairs.reverse.find? (fun kv => kv.1 == key) with
  | some kv => kv.2
  | none => dflt

/-- The expression `dict(p.split("=") for p in message.split(",") if "=" in p)`
from `needs_refinement` (src/07-advanced-patterns/agent_framework/loop.py:180):
comma-split parts containing "=" are each split at "="; Python `dict` raises
`ValueError` (here `none`) unless each such split has exactly two elements. -/
def evalPairs (message : String) : Option (List (String × String)) :=
  ((splitCh ',' message.data).filter (fun p => decide ('=' ∈ p))).mapM
    (fun p =>
      match splitCh '=' p with
      | [k, v] => some (String.mk k, String.mk v)
      | _ => none)

/-- `QUALITY_THRESHOLD` (src/07-advanced-patterns/agent_framework/loop.py:66). -/
def QUALITY_THRESHOLD : Int := 7

/-- `MAX_ITERATIONS` (src/07-advanced-patterns/agent_framework/loop.py:67). -/
def MAX_ITERATIONS : Int := 3

/-- Model of `needs_refinement` (loop.py:177-183), restricted to string
messages (`isinstance(message, str)` holds for every message the evaluate
node emits); a Python exception from `dict(...)` or `int(...)` is `none`. -/
def needs_refinement (message : String) : Option Bool :=
  (evalPairs message).bind (fun parts =>
    (pyInt (dictGet parts "quality" "0")).bind (fun quality =>
      (pyInt (dictGet parts "iteration" "0")).map (fun iteration =>
        decide (quality < QUALITY_THRESHOLD) && decide (iteration < MAX_ITERATIONS))))

/-- Model of `is_done` (loop.py:186-188): the exact negation. -/
def is_done (message : String) : Option Bool :=
  (needs_refinement message).map (fun b => !b)

theorem evalPairs_wellformed (qs ivs : String)
    (hqc : ∀ c ∈ qs.data, ¬(c = ',') ∧ ¬(c = '='))
    (hic : ∀ c ∈ ivs.data, ¬(c = ',') ∧ ¬(c = '=')) :
    evalPairs ("quality=" ++ qs ++ ",iteration=" ++ ivs)
      = some [("quality", qs), ("iteration", ivs)] := by
  have hmsg : ("quality=" ++ qs ++ ",iteration=" ++ ivs).data
      = ("quality=".data ++ qs.data) ++ ',' :: ("iteration=".data ++ ivs.data) := by
    have h1 : (",iteration=" : String).data = ',' :: ("iteration=" : String).data := rfl
    simp [String.data_append, h1]
  have hqlitc : ∀ c ∈ ("quality=" : String).data, ¬(c = ',') := by decide
  have hilitc : ∀ c ∈ ("iteration=" : String).data, ¬(c = ',') := by decide
  have hA : ∀ c ∈ ("quality=" : String).data ++ qs.data, ¬(c = ',') := by
    intro c hc
    rcases List.mem_append.mp hc with h | h
    · exact hqlitc c h
    · exact (hqc c h).1
  have hB : ∀ c ∈ ("iteration=" : String).data ++ ivs.data, ¬(c = ',') := by
    intro c hc
    rcases List.mem_append.mp hc with h | h
    · exact hilitc c h
    · exact (hic c h).1
  have hAeq : ("quality=" : String).data ++ qs.data
      = ("quality" : String).data ++ '=' :: qs.data := by
    have e : ("quality=" : String).data = ("quality" : String).data ++ ['='] := rfl
    rw [e, List.append_assoc]
    rfl
  have hBeq : ("iteration=" : String).data ++ ivs.data
      = ("iteration" : String).data ++ '=' :: ivs.data := by
    have e : ("iteration=" : String).data = ("iteration" : String).data ++ ['='] := rfl
    rw [e, List.append_assoc]
    rfl
  have hqlite : ∀ c ∈ ("quality" : String).data, ¬(c = '=') := by decide
  have hilite : ∀ c ∈ ("iteration" : String).data, ¬(c = '=') := by decide
  have hsplitA : splitCh '=' (("quality=" : String).data ++ qs.data)
      = [("quality" : String).data, qs.data] := by
    rw [hAeq, splitCh_append_sep '=' _ _ hqlite,
      splitCh_no_sep '=' qs.data (fun c hc => (hqc c hc).2)]
  have hsplitB : splitCh '=' (("iteration=" : String).data ++ ivs.data)
      = [("iteration" : String).data, ivs.data] := by
    rw [hBeq, splitCh_append_sep '=' _ _ hilite,
      splitCh_no_sep '=' ivs.data (fun c hc => (hic c hc).2)]
  have hmemA : '=' ∈ ("quality=" : String).data ++ qs.data :=
    List.mem_append.mpr (Or.inl (by decide))
  have hmemB : '=' ∈ ("iteration=" : String).data ++ ivs.data :=
    List.mem_append.mpr (Or.inl (by decide))
  unfold evalPairs
  rw [hmsg, splitCh_append_sep ',' _ _ hA, splitCh_no_sep ',' _ hB]
  simp only [List.filter_cons, List.filter_nil, decide_eq_true_eq, hmemA, hmemB, if_true]
  simp only [List.mapM_cons, List.mapM_nil, hsplitA, hsplitB]
  simp [string_eta]

theorem dictGet_pair (q i : String) :
    dictGet [("quality", q), ("iteration", i)] "quality" "0" = q ∧
    dictGet [("quality", q), ("iteration", i)] "iteration" "0" = i := by
  constructor <;> rfl

/-- C2: with `QUALITY_THRESHOLD = 7` and `MAX_ITERATIONS = 3`, for every
well-formed evaluation message `"quality={q},iteration={i}"` (integer-valued
fields with no stray "," or "="), `needs_refinement` returns true exactly
when `q < 7` and `i < 3`, `is_done` is its exact negation, and as soon as the
reported quality reaches 7 or the reported iteration reaches 3,
`needs_refinement` is false and `is_done` is true, so the `Case` edge to
`refine_prompt` (the loop-back) is no longer taken and the `Default` edge to
`finalize` is. -/
theorem needs_refinement_routing (qs ivs : String) (q i : Int)
    (hq : pyInt qs = some q) (hi : pyInt ivs = some i)
    (hqc : ∀ c ∈ qs.data, ¬(c = ',') ∧ ¬(c = '='))
    (hic : ∀ c ∈ ivs.data, ¬(c = ',') ∧ ¬(c = '=')) :
    (QUALITY_THRESHOLD = 7 ∧ MAX_ITERATIONS = 3) ∧
    needs_refinement ("quality=" ++ qs ++ ",iteration=" ++ ivs)
      = some (decide (q < 7) && decide (i < 3)) ∧
    is_done ("quality=" ++ qs ++ ",iteration=" ++ ivs)
      = some (!(decide (q < 7) && decide (i < 3))) ∧
    (7 ≤ q ∨ 3 ≤ i →
      needs_refinement ("quality=" ++ qs ++ ",iteration=" ++ ivs) = some false ∧
      is_done ("quality=" ++ qs ++ ",iteration=" ++ ivs) = some true) := by
  have hd := dictGet_pair qs ivs
  have hn : needs_refinement ("quality=" ++ qs ++ ",iteration=" ++ ivs)
      = some (decide (q < 7) && decide (i < 3)) := by
    unfold needs_refinement
    rw [evalPairs_wellformed qs ivs hqc hic]
    simp [hd.1, hd.2, hq, hi, QUALITY_THRESHOLD, MAX_ITERATIONS]
  refine ⟨⟨rfl, rfl⟩, hn, ?_, ?_⟩
  · rw [is_done, hn]
    rfl
  · intro h
    have hb : (decide (q < 7) && decide (i < 3)) = false := by
      rcases h with h | h
      · have hn7 : ¬(q < 7) := by omega
        simp [hn7]
      · have hn3 : ¬(i < 3) := by omega
        simp [hn3]
    constructor
    · rw [hn, hb]
    · rw [is_done, hn, hb]
      rfl

/-- C2 witness: the theorem applied to the concrete message
`"quality=5,iteration=1"`, on which the loop continues. -/
theorem needs_refinement_routing_witness :
    needs_refinement "quality=5,iteration=1" = some true := by
  have h := (needs_refinement_routing "5" "1" 5 1 (by decide) (by decide)
    (by decide) (by decide)).2.1
  rw [show ("quality=" ++ "5" ++ ",iteration=" ++ "1" : String)
      = "quality=5,iteration=1" from by decide] at h
  exact h.trans (by decide)

/-- `SupportTicket` (src/04-conditional-routing/flock/conditional.py:30-37): a
pydantic attribute bag; `customer_tier` defaults to "standard" when omitted. -/
structure SupportTicket where
  id : String
  subject : String
  description : String
  priority : String
  customer_tier : String
  deriving DecidableEq

/-- The `where=` predicate of `senior_support`
(src/04-conditional-routing/flock/conditional.py:69-73):
`t.priority == "critical" or t.customer_tier == "enterprise"`. -/
def senior_support_where (t : SupportTicket) : Bool :=
  t.priority == "critical" || t.customer_tier == "enterprise"

/-- The `where=` predicate of `experienced_support` (conditional.py:83-87):
`t.priority == "high" and t.customer_tier != "enterprise"`. -/
def experienced_support_where (t : SupportTicket) : Bool :=
  t.priority == "high" && t.customer_tier != "enterprise"

/-- The `where=` predicate of `standard_support` (conditional.py:96-100):
`t.priority in ("normal", "low") and t.customer_tier != "enterprise"`. -/
def standard_support_where (t : SupportTicket) : Bool :=
  (t.priority == "normal" || t.priority == "low") && t.customer_tier != "enterprise"

/-- C3: for every ticket whose priority is one of "critical", "high",
"normal", "low", exactly one of the three `where=` predicates holds (their
truth count is 1), and every ticket with `customer_tier = "enterprise"`
satisfies only the `senior_support` predicate, regardless of priority. -/
theorem support_where_partition (t : SupportTicket)
    (h : t.priority = "critical" ∨ t.priority = "high" ∨ t.priority = "normal" ∨
      t.priority = "low") :
    ((senior_support_where t).toNat + (experienced_support_where t).toNat
        + (standard_support_where t).toNat = 1) ∧
    (t.customer_tier = "enterprise" →
      senior_support_where t = true ∧ experienced_support_where t = false ∧
        standard_support_where t = false) := by
  by_cases ht : t.customer_tier = "enterprise" <;>
    rcases h with h | h | h | h <;>
      cases hb : t.customer_tier == "enterprise" <;>
        simp only [senior_support_where, experienced_support_where, standard_support_where,
          bne, h, hb] <;>
        simp_all

/-- C3 witness: the partition at a concrete enterprise ticket with a
non-critical priority, handled only by `senior_support`. -/
theorem support_where_partition_witness :
    senior_support_where ⟨"T-9", "s", "d", "low", "enterprise"⟩ = true ∧
    experienced_support_where ⟨"T-9", "s", "d", "low", "enterprise"⟩ = false ∧
    standard_support_where ⟨"T-9", "s", "d", "low", "enterprise"⟩ = false :=
  (support_where_partition ⟨"T-9", "s", "d", "low", "enterprise"⟩
    (by decide)).2 (by decide)

/-- Model of `check` (src/00-introduction/smoke_test.py:17-23): returns the
printed line together with the returned flag. -/
def check (label : String) (passed : Bool) (detail : String) : String × Bool :=
  let status := if passed then "PASS" else "FAIL"
  let msg := "  [" ++ status ++ "] " ++ label
  let msg2 := if detail ≠ "" then msg ++ " — " ++ detail else msg
  (msg2, passed)

/-- Python slicing `s[:n]`: the first `n` characters of `s`. -/
def pySliceTo (n : Nat) (s : String) : String :=
  ⟨s.data.take n⟩

/-- Model of the `except` branches around the live LLM calls
(src/00-introduction/smoke_test.py:191-192 and 218-219): the raised
exception is caught, `check(label, False, str(e)[:120])` is called, and the
result is folded into the running flag with `all_passed &= ...`.  Returns the
updated flag and the printed line. -/
def llm_call_except (all_passed : Bool) (label exc_message : String) : Bool × String :=
  let c := check label false (pySliceTo 120 exc_message)
  (all_passed && c.2, c.1)

/-- C4: whatever exception message a live framework call raises, the except
branch leaves the overall pass flag false, and prints a FAIL line for the
check whose detail is the exception message truncated to at most its first
120 characters (a prefix of the message of length at most 120). -/
theorem llm_call_except_fail_line (all_passed : Bool) (label exc_message : String) :
    (llm_call_except all_passed label exc_message).1 = false ∧
    (pySliceTo 120 exc_message).data <+: exc_message.data ∧
    (pySliceTo 120 exc_message).data.length ≤ 120 ∧
    (llm_call_except all_passed label exc_message).2 =
      (if pySliceTo 120 exc_message ≠ "" then
        "  [FAIL] " ++ label ++ " — " ++ pySliceTo 120 exc_message
      else "  [FAIL] " ++ label) := by
  refine ⟨?_, ?_, ?_, ?_⟩
  · simp [llm_call_except, check]
  · exact List.take_prefix 120 exc_message.data
  · calc (pySliceTo 120 exc_message).data.length
        = min 120 exc_message.data.length := List.length_take 120 exc_message.data
      _ ≤ 120 := min_le_left _ _
  · by_cases hd : pySliceTo 120 exc_message ≠ "" <;>
      simp [llm_call_except, check, hd, String.data_append]

/-- The three recognized routes, in source order
(src/04-conditional-routing/agent_framework/conditional.py:118). -/
def ROUTES : List String := ["senior", "experienced", "standard"]

/-- Whether `pat` is a prefix of `l`. -/
def prefixOfCh : List Char → List Char → Bool
  | [], _ => true
  | _ :: _, [] => false
  | p :: ps, c :: cs => p == c && prefixOfCh ps cs

/-- Whether `pat` occurs as a contiguous substring of `l`
(Python `pat in s` on strings). -/
def infixOfCh (pat : List Char) : List Char → Bool
  | [] => prefixOfCh pat []
  | c :: rest => prefixOfCh pat (c :: rest) || infixOfCh pat rest

/-- The test `"ROUTE:" in line.upper()` (conditional.py:117): a
case-insensitive substring check.  `Char.toUpper` models `str.upper` on the
ASCII text involved. -/
def line_has_route (line : List Char) : Bool :=
  infixOfCh ("ROUTE:" : String).data (line.map Char.toUpper)

/-- The candidate route of a line: `line.split(":")[-1].strip().lower()`
(conditional.py:118). -/
def route_value_of_line (line : List Char) : String :=
  String.mk ((stripList pyWhitespace ((splitCh ':' line).getLastD [])).map Char.toLower)

/-- The body of the matching branch (conditional.py:118-120): the candidate
is taken as the route when it is one of the three recognized routes,
otherwise the route stays "standard". -/
def route_of_line (line : List Char) : String :=
  if route_value_of_line line ∈ ROUTES then route_value_of_line line else "standard"

/-- The scan of `text.split("\n")` in `parse_classification`
(conditional.py:115-121): lines are visited in order and the loop breaks at
the first line containing "ROUTE:". -/
def scan_route : List (List Char) → String
  | [] => "standard"
  | line :: rest => if line_has_route line then route_of_line line else scan_route rest

/-- `ClassifiedTicket` (conditional.py:70-76). -/
structure ClassifiedTicket where
  original_text : String
  priority : String
  customer_tier : String
  route_to : String
  deriving DecidableEq

/-- Model of `parse_classification` (conditional.py:106-134) for a classifier
response whose text is `text`; `original` stands for the first non-empty
message text recovered from the response (an independent scan that does not
affect `route_to`). -/
def parse_classification (text original : String) : ClassifiedTicket :=
  { original_text := original
    priority := "determined-by-classifier"
    customer_tier := "determined-by-classifier"
    route_to := scan_route (splitCh '\n' text.data) }

/-- The predicate factory `route_matches` (conditional.py:189-193), at a
`ClassifiedTicket` message (where the `isinstance` test holds). -/
def route_matches (expected : String) (message : ClassifiedTicket) : Bool :=
  message.route_to == expected

theorem route_of_line_mem (line : List Char) : route_of_line line ∈ ROUTES := by
  unfold route_of_line
  by_cases h : route_value_of_line line ∈ ROUTES
  · rw [if_pos h]
    exact h
  · rw [if_neg h]
    simp [ROUTES]

theorem scan_route_mem (lines : List (List Char)) : scan_route lines ∈ ROUTES := by
  induction lines with
  | nil => simp [scan_route, ROUTES]
  | cons line rest ih =>
    by_cases h : line_has_route line = true
    · simpa [scan_route, h] using route_of_line_mem line
    · simpa [scan_route, h] using ih

/-- C5: `parse_classification` always emits a ticket whose `route_to` is one
of "senior", "experienced", "standard"; the scan visits lines in order, the
first line containing "ROUTE:" (case-insensitively) fully determines the
result via `route_of_line` (text after the last colon, stripped and
lowercased, defaulting to "standard" when unrecognized), non-matching lines
are skipped, a text with no matching line yields "standard", and lines after
the first matching line are never consulted. -/
theorem parse_classification_route_spec (text original : String) :
    (parse_classification text original).route_to ∈ ROUTES ∧
    (parse_classification text original).route_to = scan_route (splitCh '\n' text.data) ∧
    scan_route [] = "standard" ∧
    (∀ line rest, line_has_route line = true →
      scan_route (line :: rest) = route_of_line line) ∧
    (∀ line rest, line_has_route line = false →
      scan_route (line :: rest) = scan_route rest) ∧
    (∀ line rest rest2, line_has_route line = true →
      scan_route (line :: rest) = scan_route (line :: rest2)) := by
  refine ⟨scan_route_mem _, rfl, rfl, ?_, ?_, ?_⟩
  · intro line rest h
    simp [scan_route, h]
  · intro line rest h
    simp [scan_route, h]
  · intro line rest rest2 h
    simp [scan_route, h]

/-- C5 witness: on the concrete response text "route: Senior\njunk", the
emitted route is "senior" and the second line is never consulted. -/
theorem parse_classification_route_spec_witness :
    (parse_classification "route: Senior\njunk" "orig").route_to = "senior" ∧
    scan_route [("route: Senior" : String).data, ("junk" : String).data]
      = scan_route [("route: Senior" : String).data] := by
  constructor
  · exact ((parse_classification_route_spec "route: Senior\njunk" "orig").2.1).trans (by decide)
  · exact (parse_classification_route_spec "" "").2.2.2.2.2 _ _ _ (by decide)

/-- Python `s.upper()` (`Char.toUpper` models it on the ASCII currency codes). -/
def pyUpper (s : String) : String :=
  ⟨s.data.map Char.toUpper⟩

/-- The hard-coded exchange-rate table of `convert_currency`
(src/05-tools-and-functions/flock/tools.py:63-69 and
src/05-tools-and-functions/agent_framework/tools.py:84-90, identical in both
copies), with the decimal float literals written as rationals. -/
def rates : List ((String × String) × ℚ) :=
  [(("USD", "EUR"), 92/100), (("EUR", "USD"), 109/100),
   (("USD", "JPY"), 14950/100), (("JPY", "USD"), 67/10000),
   (("USD", "GBP"), 79/100), (("GBP", "USD"), 127/100),
   (("EUR", "GBP"), 86/100), (("GBP", "EUR"), 116/100),
   (("EUR", "JPY"), 16250/100), (("JPY", "EUR"), 62/10000)]

/-- Python `rates.get(pair, 1.0)`. -/
def ratesGet (pair : String × String) : ℚ :=
  match rates.find? (fun e => e.1 == pair) with
  | some e => e.2
  | none => 1

/-- The quantities and currency codes displayed on the two sides of the "="
in the f-string `convert_currency` returns. -/
structure ConversionResult where
  amount_from : ℚ
  currency_from : String
  amount_to : ℚ
  currency_to : String
  deriving DecidableEq

/-- Model of `convert_currency` (src/05-tools-and-functions/flock/tools.py:52-76).
Python float arithmetic is modelled in `ℚ`; the properties proved about this
definition multiply only by the literal `1.0` or return `amount` itself,
which is exact in IEEE arithmetic as well. -/
def convert_currency_flock (amount : ℚ) (from_currency to_currency : String) :
    ConversionResult :=
  let pair := (pyUpper from_currency, pyUpper to_currency)
  if pair.1 = pair.2 then
    { amount_from := amount, currency_from := pair.1,
      amount_to := amount, currency_to := pair.2 }
  else
    let rate := ratesGet pair
    { amount_from := amount, currency_from := pyUpper from_currency,
      amount_to := amount * rate, currency_to := pyUpper to_currency }

/-- Model of the Agent Framework copy of `convert_currency`
(src/05-tools-and-functions/agent_framework/tools.py:77-96); its body is
verbatim identical to the Flock copy. -/
def convert_currency_af (amount : ℚ) (from_currency to_currency : String) :
    ConversionResult :=
  let pair := (pyUpper from_currency, pyUpper to_currency)
  if pair.1 = pair.2 then
    { amount_from := amount, currency_from := pair.1,
      amount_to := amount, currency_to := pair.2 }
  else
    let rate := ratesGet pair
    { amount_from := amount, currency_from := pyUpper from_currency,
      amount_to := amount * rate, currency_to := pyUpper to_currency }

/-- The multiplier `convert_currency` effectively applies to the amount:
1 on the identity branch, the table rate otherwise, 1 again when the pair is
missing from the table. -/
def effective_rate (cf ct : String) : ℚ :=
  if cf = ct then 1 else ratesGet (cf, ct)

/-- C7: identity conversion — for currency codes equal up to letter case the
result states the same amount on both sides; and for a pair absent from the
hard-coded table (and not equal up to case) the rate silently defaults to
1.0, so the reported converted amount equals the input amount.  Both the
Flock and the Agent Framework copies satisfy this, and they agree on every
input. -/
theorem convert_currency_identity_and_default (amount : ℚ) (fc tc : String) :
    (pyUpper fc = pyUpper tc →
      (convert_currency_flock amount fc tc).amount_to = amount ∧
      (convert_currency_flock amount fc tc).amount_from = amount ∧
      (convert_currency_af amount fc tc).amount_to = amount) ∧
    (pyUpper fc ≠ pyUpper tc →
      rates.find? (fun e => e.1 == (pyUpper fc, pyUpper tc)) = none →
      ratesGet (pyUpper fc, pyUpper tc) = 1 ∧
      (convert_currency_flock amount fc tc).amount_to = amount ∧
      (convert_currency_af amount fc tc).amount_to = amount) ∧
    convert_currency_flock amount fc tc = convert_currency_af amount fc tc := by
  refine ⟨?_, ?_, rfl⟩
  · intro h
    simp [convert_currency_flock, convert_currency_af, h]
  · intro hne hnone
    have hr : ratesGet (pyUpper fc, pyUpper tc) = 1 := by
      simp [ratesGet, hnone]
    simp [convert_currency_flock, convert_currency_af, hne, hr]

/-- C7 witness: the theorem at a case-insensitive identity pair and at a pair
absent from the table. -/
theorem convert_currency_identity_and_default_witness :
    (convert_currency_flock 5 "usd" "USD").amount_to = 5 ∧
    (convert_currency_af 7 "USD" "CHF").amount_to = 7 :=
  ⟨((convert_currency_identity_and_default 5 "usd" "USD").1 (by decide)).1,
    ((convert_currency_identity_and_default 7 "USD" "CHF").2.1 (by decide)
      (by decide)).2.2⟩

/-- C6 counterexample: the repository-defined function `convert_currency`
does perform arithmetic on its input: on amount 2 with pair USD → EUR it
reports the converted amount 2 × 0.92 = 46/25, which differs from the input
amount, so the repository's own code is not limited to schema declaration,
agent wiring, console printing, and environment reading. -/
theorem repo_code_performs_arithmetic :
    (convert_currency_flock 2 "USD" "EUR").amount_to = 46 / 25 ∧
    (convert_currency_flock 2 "USD" "EUR").amount_from = 2 ∧
    (46 : ℚ) / 25 ≠ 2 := by
  have hne : ¬ pyUpper "USD" = pyUpper "EUR" := by decide
  have hr : ratesGet (pyUpper "USD", pyUpper "EUR") = 92 / 100 := by
    rw [show (pyUpper "USD", pyUpper "EUR") = ("USD", "EUR") from by decide]
    rfl
  refine ⟨?_, rfl, by norm_num⟩
  simp only [convert_currency_flock, hne, if_false, hr]
  norm_num

/-- C6 amended: apart from the simulated demo tools and small text parsers,
the repository performs no computation; in particular the only numeric
computation `convert_currency` performs is a single multiplication of the
input amount by a hard-coded effective rate (1 for identity or missing
pairs), in both framework copies. -/
theorem convert_currency_is_rate_multiplication (amount : ℚ) (fc tc : String) :
    (convert_currency_flock amount fc tc).amount_to
      = amount * effective_rate (pyUpper fc) (pyUpper tc) ∧
    (convert_currency_af amount fc tc).amount_to
      = amount * effective_rate (pyUpper fc) (pyUpper tc) := by
  by_cases h : pyUpper fc = pyUpper tc <;>
    simp [convert_currency_flock, convert_currency_af, effective_rate, h]

/-- Optional lower/upper bounds a pydantic integer field may declare. -/
structure IntFieldSpec where
  ge : Option Int
  le : Option Int
  deriving DecidableEq

/-- Run the declared bounds over an integer value. -/
def IntFieldSpec.check (spec : IntFieldSpec) (v : Int) : Bool :=
  (match spec.ge with
    | some b => decide (b ≤ v)
    | none => true) &&
  (match spec.le with
    | some b => decide (v ≤ b)
    | none => true)

/-- An optional allowed-value set a pydantic string field may declare
(a `Literal`/enum constraint). -/
structure StrFieldSpec where
  allowed : Option (List String)
  deriving DecidableEq

/-- Run the declared allowed-value set over a string value. -/
def StrFieldSpec.check (spec : StrFieldSpec) (v : String) : Bool :=
  match spec.allowed with
  | some l => decide (v ∈ l)
  | none => true

/-- `EssayDraft` (src/07-advanced-patterns/flock/feedback_loop.py:33-40): a
pydantic attribute bag; `feedback` defaults to `""` when omitted. -/
structure EssayDraft where
  topic : String
  content : String
  iteration : Int
  quality_score : Int
  feedback : String
  deriving DecidableEq

/-- Constraints declared on `EssayDraft.iteration` (feedback_loop.py:37):
the source writes `Field(description="Current iteration number (starts at 0)")`
— a description only, no `ge`/`le` bound. -/
def EssayDraft.iteration_spec : IntFieldSpec := ⟨none, none⟩

/-- Constraints declared on `EssayDraft.quality_score` (feedback_loop.py:38):
`Field(description="Self-assessed quality score 1-10")` — the 1-10 range
appears only in the description text, not as a validation bound. -/
def EssayDraft.quality_score_spec : IntFieldSpec := ⟨none, none⟩

/-- Constraints declared on `SupportTicket.priority`
(src/04-conditional-routing/flock/conditional.py:35): the priority set
"critical, high, normal, low" appears only in the description text, the
declared type is a bare `str`. -/
def SupportTicket.priority_spec : StrFieldSpec := ⟨none⟩

/-- Constraints declared on `SupportTicket.customer_tier` (conditional.py:36):
description text only, bare `str`. -/
def SupportTicket.customer_tier_spec : StrFieldSpec := ⟨none⟩

/-- Pydantic construction of `EssayDraft`: validation runs exactly the
declared constraints over the type-correct field values. -/
def EssayDraft.construct (topic content : String) (iteration quality_score : Int)
    (feedback : String) : Option EssayDraft :=
  if EssayDraft.iteration_spec.check iteration
      && EssayDraft.quality_score_spec.check quality_score then
    some ⟨topic, content, iteration, quality_score, feedback⟩
  else none

/-- Pydantic construction of `SupportTicket`. -/
def SupportTicket.construct (id subject description priority customer_tier : String) :
    Option SupportTicket :=
  if SupportTicket.priority_spec.check priority
      && SupportTicket.customer_tier_spec.check customer_tier then
    some ⟨id, subject, description, priority, customer_tier⟩
  else none

/-- C8: the declared records are attribute bags with no invariants:
construction succeeds on every type-correct field value — in particular
`EssayDraft` accepts a quality score outside 1-10 and a negative iteration,
and `SupportTicket` accepts a priority outside the four documented values,
because those restrictions live only in the description strings. -/
theorem models_accept_all_values (topic content : String)
    (iteration quality_score : Int)
    (feedback id subject description priority customer_tier : String) :
    EssayDraft.construct topic content iteration quality_score feedback
      = some ⟨topic, content, iteration, quality_score, feedback⟩ ∧
    SupportTicket.construct id subject description priority customer_tier
      = some ⟨id, subject, description, priority, customer_tier⟩ := by
  constructor <;> rfl

end WdOrch
